import Mathlib

/-!
Shallow embedding of the veo-backend authentication and tenancy logic.

Timestamps are modelled as natural numbers (`Nat`); `timezone.now()` becomes an
explicit `now` parameter and every comparison mirrors the comparison operator
used at the corresponding line of the Python source.  Database rows become
structures, tables become lists, and each endpoint or service method becomes a
function from the pre-state (plus request data) to a result paired with the
post-state.  Randomly generated values (verification codes) and the outcome of
external calls (SMS dispatch) enter as explicit parameters.
-/

namespace Veo

/-- One `magic_links` row (apps/authentication/models.py, `MagicLink`).
Only the fields the verification logic reads are kept. -/
structure MagicLink where
  token : String
  expires_at : Nat
  is_used : Bool
  used_at : Option Nat
deriving Repr, DecidableEq

/-- `MagicLink.is_valid` (models.py lines 101-107): used links and links whose
expiry lies strictly in the past are invalid. -/
def MagicLink.is_valid (ml : MagicLink) (now : Nat) : Bool :=
  if ml.is_used then false
  else if now > ml.expires_at then false
  else true

/-- Error taxonomy of `MagicLinkVerifySerializer.validate_token`
(serializers.py lines 134-144): an unknown token and an invalid one both raise
a validation error, with distinct messages. -/
inductive RedeemError where
  | invalidToken
  | usedOrExpired
deriving Repr, DecidableEq

/-- `AuthViewSet.verify_magic_link` composed with
`MagicLinkVerifySerializer.validate_token`: the serializer looks the token up
(`stored = none` models `MagicLink.DoesNotExist`) and rejects it unless
`is_valid`; the view then sets `is_used = True` and saves (views.py lines
172-180; note the view writes `is_used` directly and never touches `used_at`).
Returns the redeemed row and the stored row after the request. -/
def AuthViewSet.verify_magic_link (stored : Option MagicLink) (now : Nat) :
    Except RedeemError MagicLink × Option MagicLink :=
  match stored with
  | none => (Except.error RedeemError.invalidToken, none)
  | some ml =>
    if ml.is_valid now = false then (Except.error RedeemError.usedOrExpired, some ml)
    else (Except.ok { ml with is_used := true }, some { ml with is_used := true })

/-- One `phone_verifications` row (models.py, `PhoneVerification`). -/
structure PhoneVerification where
  phone_number : String
  verification_code : String
  created_at : Nat
  expires_at : Nat
  is_verified : Bool
  verified_at : Option Nat
  attempts : Nat
  max_attempts : Nat
deriving Repr, DecidableEq

/-- `PhoneVerification.is_valid` (models.py lines 176-184): already verified,
expired, or attempts exhausted means invalid. -/
def PhoneVerification.is_valid (v : PhoneVerification) (now : Nat) : Bool :=
  if v.is_verified then false
  else if now > v.expires_at then false
  else if v.attempts ≥ v.max_attempts then false
  else true

/-- `PhoneVerification.verify_code` (models.py lines 186-199): invalid records
fail without any state change; a matching code marks the row verified and
stamps `verified_at`; a mismatch increments `attempts`. -/
def PhoneVerification.verify_code (v : PhoneVerification) (now : Nat) (code : String) :
    Bool × PhoneVerification :=
  if v.is_valid now = false then (false, v)
  else if v.verification_code = code then
    (true, { v with is_verified := true, verified_at := some now })
  else
    (false, { v with attempts := v.attempts + 1 })

/-- The slice of a `users` row that the phone-verification flow mutates. -/
structure AuthUser where
  id : Nat
  phone : String
  is_phone_verified : Bool
deriving Repr, DecidableEq

/-- Error taxonomy of `PhoneService.verify_code_for_user`
(services.py lines 169-207), one constructor per distinct error message. -/
inductive VerifyError where
  | noRecord
  | alreadyUsed
  | expired
  | invalidCode
deriving Repr, DecidableEq

/-- `PhoneService.verify_code_for_user` (services.py lines 169-207): the user's
single verification row is looked up (`none` models `DoesNotExist`); an already
verified row errors first, then an expired one (`expires_at < now`), then the
model-level `verify_code` runs; on success the user's phone and verified flag
are updated.  Returns (result, user after, verification row after). -/
def PhoneService.verify_code_for_user (user : AuthUser) (stored : Option PhoneVerification)
    (code : String) (now : Nat) :
    Except VerifyError Unit × AuthUser × Option PhoneVerification :=
  match stored with
  | none => (Except.error VerifyError.noRecord, user, none)
  | some v =>
    if v.is_verified then (Except.error VerifyError.alreadyUsed, user, some v)
    else if v.expires_at < now then (Except.error VerifyError.expired, user, some v)
    else
      let r := v.verify_code now code
      if r.1 then
        (Except.ok (), { user with phone := r.2.phone_number, is_phone_verified := true },
          some r.2)
      else
        (Except.error VerifyError.invalidCode, user, some r.2)

/-- Character predicate of the regex `[^\d+]` used by
`PhoneService.normalize_phone_number` (services.py line 32): every digit and
every plus sign survives `re.sub(r'[^\d+]', '', ...)`, wherever it occurs. -/
def keptByNormalize (c : Char) : Bool :=
  c.isDigit || c = '+'

/-- List-of-characters core of `PhoneService.normalize_phone_number`
(services.py lines 29-38): drop everything the regex drops, then prepend `'+'`
when the result does not already start with one. -/
def normalizeChars (cs : List Char) : List Char :=
  let cleaned := cs.filter keptByNormalize
  if cleaned.head? = some '+' then cleaned else '+' :: cleaned

/-- `PhoneService.normalize_phone_number` (services.py lines 29-38). -/
def PhoneService.normalize_phone_number (s : String) : String :=
  String.mk (normalizeChars s.data)

/-- One `instance_members` row (apps/instances/models.py, `InstanceMember`).
Roles are the strings of `ROLE_CHOICES`; `unique_together = (instance, user)`
holds in any state reachable from the endpoints below. -/
structure InstanceMember where
  userId : Nat
  instanceId : Nat
  role : String
  is_active : Bool
deriving Repr, DecidableEq

/-- `InstanceViewSet.get_queryset` membership filter (instances/views.py lines
32-39): an instance is visible to a caller only through an active membership,
so `self.get_object()` raises 404 for everyone else. -/
def canResolveInstance (instances : List Nat) (members : List InstanceMember)
    (callerId instId : Nat) : Bool :=
  instId ∈ instances &&
    members.any fun m => m.userId = callerId && m.instanceId = instId && m.is_active

/-- The `InstanceMember.objects.filter(instance=…, user=…, role__in=roles)`
permission probe used by the views.  Deliberately mirrors the source: the
filter does not constrain `is_active`. -/
def hasRole (members : List InstanceMember) (callerId instId : Nat)
    (roles : List String) : Bool :=
  members.any fun m => m.userId = callerId && m.instanceId = instId && m.role ∈ roles

/-- Outcomes of `InstanceViewSet.remove_member` (instances/views.py lines
134-183), one constructor per response branch. -/
inductive RemoveResult where
  | notFoundInstance
  | forbidden
  | memberNotFound
  | cannotRemoveOwner
  | ok
deriving Repr, DecidableEq

/-- Row predicate of the target-member lookup in `remove_member` (views.py
lines 161-165): active membership of `targetId` in `instId`. -/
def targetRow (instId targetId : Nat) (m : InstanceMember) : Bool :=
  m.instanceId = instId && m.userId = targetId && m.is_active

/-- Deactivate the first row matching `p` (`member.is_active = False;
member.save()` on the row returned by `.first()`). -/
def deactivateFirst (p : InstanceMember → Bool) : List InstanceMember → List InstanceMember
  | [] => []
  | m :: ms => if p m then { m with is_active := false } :: ms else m :: deactivateFirst p ms

/-- `InstanceViewSet.remove_member` (instances/views.py lines 134-183):
resolve the instance through the active-membership queryset (404 otherwise),
require an owner/admin row for the caller (403 otherwise, the filter ignoring
`is_active`), find the target's active row (404 otherwise), refuse role
`owner` (400), else deactivate the row. -/
def InstanceViewSet.remove_member (instances : List Nat) (members : List InstanceMember)
    (callerId instId targetId : Nat) : RemoveResult × List InstanceMember :=
  if canResolveInstance instances members callerId instId = false then
    (RemoveResult.notFoundInstance, members)
  else if hasRole members callerId instId ["owner", "admin"] = false then
    (RemoveResult.forbidden, members)
  else
    match members.find? (targetRow instId targetId) with
    | none => (RemoveResult.memberNotFound, members)
    | some member =>
      if member.role = "owner" then (RemoveResult.cannotRemoveOwner, members)
      else (RemoveResult.ok, deactivateFirst (targetRow instId targetId) members)

/-- Outcomes of `InstanceViewSet.invite_member` (instances/views.py lines
89-132) together with `InstanceMemberInviteSerializer` (serializers.py lines
131-155). -/
inductive InviteResult where
  | notFoundInstance
  | forbidden
  | invalidRole
  | noSuchUser
  | alreadyMember
  | ok
deriving Repr, DecidableEq

/-- Role choices of `InstanceMemberInviteSerializer.role`
(instances/serializers.py line 136): `owner` is not offered. -/
def inviteRoleChoices : List String :=
  ["admin", "manager", "staff"]

/-- `InstanceViewSet.invite_member` (instances/views.py lines 89-132): resolve
the instance (404), require a caller row with role owner/admin (403, again
without an `is_active` constraint), validate the payload through
`InstanceMemberInviteSerializer` (role must be one of `inviteRoleChoices`, the
invited user must exist, and no membership row — active or not — may already
pair them with the instance), then create an active membership. -/
def InstanceViewSet.invite_member (instances users : List Nat)
    (members : List InstanceMember) (callerId instId targetId : Nat) (role : String) :
    InviteResult × List InstanceMember :=
  if canResolveInstance instances members callerId instId = false then
    (InviteResult.notFoundInstance, members)
  else if hasRole members callerId instId ["owner", "admin"] = false then
    (InviteResult.forbidden, members)
  else if (role ∈ inviteRoleChoices : Bool) = false then
    (InviteResult.invalidRole, members)
  else if (targetId ∈ users : Bool) = false then
    (InviteResult.noSuchUser, members)
  else if members.any (fun m => m.instanceId = instId && m.userId = targetId) then
    (InviteResult.alreadyMember, members)
  else
    (InviteResult.ok, members ++ [⟨targetId, instId, role, true⟩])

/-- The slice of a `menus` row that `MenuViewSet.create` persists. -/
structure MenuRow where
  instanceId : Nat
  name : String
deriving Repr, DecidableEq

/-- Outcomes of `MenuViewSet.create` (menus/views.py lines 56-82). -/
inductive MenuCreateResult where
  | invalidInstance
  | forbidden
  | created
deriving Repr, DecidableEq

/-- `MenuViewSet.create` (menus/views.py lines 56-82): `MenuCreateSerializer`
validates that the target instance exists (its `instance` field resolves
against all instances), then the view checks for a caller membership with role
owner/admin/manager — the filter at lines 66-70 has no `is_active` clause —
and saves the menu. -/
def MenuViewSet.create (instances : List Nat) (members : List InstanceMember)
    (menus : List MenuRow) (callerId : Nat) (newMenu : MenuRow) :
    MenuCreateResult × List MenuRow :=
  if (newMenu.instanceId ∈ instances : Bool) = false then
    (MenuCreateResult.invalidInstance, menus)
  else if hasRole members callerId newMenu.instanceId ["owner", "admin", "manager"] = false then
    (MenuCreateResult.forbidden, menus)
  else
    (MenuCreateResult.created, menus ++ [newMenu])

/-- The slice of an `instances` row that `InstanceCreateSerializer.create`
persists. -/
structure InstanceRow where
  id : Nat
  name : String
deriving Repr, DecidableEq

/-- `InstanceCreateSerializer.create` (instances/serializers.py lines 84-110):
`Instance.objects.create(**validated_data)` runs first, then
`InstanceMember.objects.create(..., role='owner', is_active=True)`.  Nothing
wraps the two writes in a transaction (no `transaction.atomic`, and the
project settings define no `ATOMIC_REQUESTS`), so when the membership write
raises — modelled by the `membershipFails` flag — the `except` branch
re-raises while the already-committed instance row stays persisted.  Returns
(created instance on success, instances after, members after). -/
def InstanceCreateSerializer.create (instances : List InstanceRow)
    (members : List InstanceMember) (userId newId : Nat) (name : String)
    (membershipFails : Bool) :
    Option InstanceRow × List InstanceRow × List InstanceMember :=
  let row : InstanceRow := ⟨newId, name⟩
  let instances' := instances ++ [row]
  if membershipFails then
    (none, instances', members)
  else
    (some row, instances', members ++ [⟨userId, newId, "owner", true⟩])

/-- Outcomes of `PhoneService.create_verification` (services.py lines 68-139):
`ok smsError` carries the `sms_error` field that the degraded-success branch
attaches when SMS dispatch failed (`none` when dispatch succeeded). -/
inductive CreateVerificationResult where
  | phoneTaken
  | cooldownActive (remaining : Nat)
  | ok (smsError : Option String)
deriving Repr, DecidableEq

/-- `PhoneService.create_verification` (services.py lines 68-139).
`users` is the `users` table slice the uniqueness query scans; `existing` is
the caller's single verification row (`none` models `DoesNotExist`);
`newCode` stands for the randomly generated 6-digit code and `smsOk`/`smsErr`
for the outcome of the Twilio call.  Order of checks as in the source:
phone-uniqueness against other users (line 71, on the raw argument), the
10-minute cooldown from the existing row's `created_at` (lines 78-89),
normalization, then upsert — `get_or_create` for a fresh row with
`max_attempts` defaulting to 3, or an overwrite that resets code, expiry,
`is_verified`, `attempts` and `created_at` (lines 99-116; `verified_at` and
`max_attempts` are left as they were).  SMS failure still returns success with
the error attached (lines 128-139). -/
def PhoneService.create_verification (users : List AuthUser) (callerId : Nat)
    (existing : Option PhoneVerification) (phone newCode : String) (now : Nat)
    (smsOk : Bool) (smsErr : String) :
    CreateVerificationResult × Option PhoneVerification :=
  if users.any (fun u => u.phone = phone && u.id ≠ callerId) then
    (CreateVerificationResult.phoneTaken, existing)
  else
    match existing with
    | some v =>
      let remaining : Int := (v.created_at : Int) + 600 - (now : Int)
      if remaining > 0 then
        (CreateVerificationResult.cooldownActive remaining.toNat, some v)
      else
        let v' := { v with
          phone_number := PhoneService.normalize_phone_number phone,
          verification_code := newCode,
          expires_at := now + 600,
          is_verified := false,
          attempts := 0,
          created_at := now }
        (CreateVerificationResult.ok (if smsOk then none else some smsErr), some v')
    | none =>
      let v' : PhoneVerification :=
        { phone_number := PhoneService.normalize_phone_number phone,
          verification_code := newCode,
          created_at := now,
          expires_at := now + 600,
          is_verified := false,
          verified_at := none,
          attempts := 0,
          max_attempts := 3 }
      (CreateVerificationResult.ok (if smsOk then none else some smsErr), some v')

/-- Response body of `AuthViewSet.phone_verification_cooldown`
(authentication/views.py lines 282-342). -/
structure CooldownResponse where
  cooldown_active : Bool
  cooldown_remaining : Nat
  can_send : Bool
  has_active_code : Bool
deriving Repr, DecidableEq

/-- `AuthViewSet.phone_verification_cooldown` (views.py lines 282-342).  A GET
endpoint that nevertheless writes: when the caller's row is past expiry and
not yet verified, lines 298-301 set `is_verified = True` and save before the
cooldown arithmetic runs.  Returns the response and the row after the
request. -/
def AuthViewSet.phone_verification_cooldown (stored : Option PhoneVerification)
    (now : Nat) : CooldownResponse × Option PhoneVerification :=
  match stored with
  | none => (⟨false, 0, true, false⟩, none)
  | some v0 =>
    let v := if v0.expires_at < now && v0.is_verified = false then
        { v0 with is_verified := true } else v0
    let remaining : Int := (v.created_at : Int) + 600 - (now : Int)
    let active := v.is_verified = false && now < v.expires_at
    if remaining > 0 then
      (⟨true, remaining.toNat, false, active⟩, some v)
    else
      (⟨false, 0, true, active⟩, some v)

/-- `SupportTicket.CATEGORY_PRIORITY_MAP` (apps/support/models.py lines
39-47). -/
def CATEGORY_PRIORITY_MAP : List (String × String) :=
  [("cannot_use_app", "critical"),
   ("payment_issue", "high"),
   ("menu_not_loading", "high"),
   ("qr_code_issue", "medium"),
   ("translation_error", "medium"),
   ("feature_request", "low"),
   ("other", "medium")]

/-- The fields of a `support_tickets` row that `SupportTicket.save` touches. -/
structure SupportTicket where
  ticket_number : String
  category : String
  priority : String
deriving Repr, DecidableEq

/-- The `f"TICK-{new_num:04d}"` format of support/models.py line 85. -/
def ticketNumberFormat (n : Nat) : String :=
  let s := toString n
  "TICK-" ++ String.mk (List.replicate (4 - s.length) '0') ++ s

/-- `SupportTicket.save` (support/models.py lines 76-91): assign the next
ticket number when the field is empty (`lastNum` is the number parsed from the
most recently created ticket, `none` when the table is empty), then — on every
save, despite the "if not manually set" comment — overwrite `priority` with the
category's mapped value whenever `category` is non-empty and a key of
`CATEGORY_PRIORITY_MAP`. -/
def SupportTicket.save (t : SupportTicket) (lastNum : Option Nat) : SupportTicket :=
  let t :=
    if t.ticket_number = "" then
      { t with ticket_number := ticketNumberFormat ((lastNum.getD 0) + 1) }
    else t
  match (if t.category = "" then none else CATEGORY_PRIORITY_MAP.lookup t.category) with
  | some p => { t with priority := p }
  | none => t

/-- A member-management request: the two endpoints that create or remove
`InstanceMember` rows. -/
inductive MemberOp where
  | invite (callerId instId targetId : Nat) (role : String)
  | remove (callerId instId targetId : Nat)
deriving Repr, DecidableEq

/-- Run one member-management request against the membership table. -/
def applyMemberOp (instances users : List Nat) (members : List InstanceMember) :
    MemberOp → List InstanceMember
  | MemberOp.invite c i t r => (InstanceViewSet.invite_member instances users members c i t r).2
  | MemberOp.remove c i t => (InstanceViewSet.remove_member instances members c i t).2

/-- Run a sequence of member-management requests. -/
def applyMemberOps (instances users : List Nat) (members : List InstanceMember)
    (ops : List MemberOp) : List InstanceMember :=
  ops.foldl (applyMemberOp instances users) members

/-- The membership rows holding role `owner`. -/
def ownerRows (members : List InstanceMember) : List InstanceMember :=
  members.filter fun m => m.role = "owner"

/-! ## Theorems -/

theorem mem_normalizeChars {c : Char} {cs : List Char}
    (h : c ∈ normalizeChars cs) : c.isDigit ∨ c = '+' := by
  unfold normalizeChars at h
  by_cases hh : (cs.filter keptByNormalize).head? = some '+'
  · rw [if_pos hh] at h
    have hk := List.of_mem_filter h
    simpa [keptByNormalize] using hk
  · rw [if_neg hh] at h
    rcases List.mem_cons.mp h with h | h
    · exact Or.inr h
    · have hk := List.of_mem_filter h
      simpa [keptByNormalize] using hk

theorem filter_isDigit_normalizeChars (cs : List Char) :
    (cs.filter keptByNormalize).filter Char.isDigit = cs.filter Char.isDigit := by
  rw [List.filter_filter]
  apply List.filter_congr
  intro a _
  cases h : a.isDigit <;> simp [keptByNormalize, h]

/-- C5 counterexample: the claim states the normalized output always consists
of `'+'` followed only by digits, but the regex `[^\d+]` keeps every plus
sign; on input `"1+2"` the output is `"+1+2"`, whose tail is not all
digits. -/
theorem normalize_phone_number_counterexample :
    PhoneService.normalize_phone_number "1+2" = "+1+2" ∧
    ((PhoneService.normalize_phone_number "1+2").data.drop 1).all Char.isDigit = false := by
  exact ⟨by decide, by decide⟩

/-- C5 (amended): normalization removes all characters except digits and plus
signs — every `'+'` survives, wherever it occurs, not only a leading one — and
prepends `'+'` when the result does not start with one; hence the output
always starts with `'+'`, every character of it is a digit or `'+'`, and the
digit sequence of the input is preserved. -/
theorem normalize_phone_number_amended (s : String) :
    (PhoneService.normalize_phone_number s).data.head? = some '+' ∧
    (∀ c ∈ (PhoneService.normalize_phone_number s).data, c.isDigit ∨ c = '+') ∧
    (PhoneService.normalize_phone_number s).data.filter Char.isDigit
      = s.data.filter Char.isDigit := by
  refine ⟨?_, fun c hc => mem_normalizeChars hc, ?_⟩
  · show (normalizeChars s.data).head? = some '+'
    unfold normalizeChars
    by_cases hh : (s.data.filter keptByNormalize).head? = some '+'
    · rw [if_pos hh]; exact hh
    · rw [if_neg hh]; rfl
  · show (normalizeChars s.data).filter Char.isDigit = s.data.filter Char.isDigit
    unfold normalizeChars
    by_cases hh : (s.data.filter keptByNormalize).head? = some '+'
    · rw [if_pos hh]; exact filter_isDigit_normalizeChars s.data
    · rw [if_neg hh, List.filter_cons_of_neg (by decide)]
      exact filter_isDigit_normalizeChars s.data

theorem normalize_phone_number_amended_witness :
    ('1'.isDigit ∨ '1' = '+') ∧
    (PhoneService.normalize_phone_number "1+2").data.head? = some '+' :=
  ⟨(normalize_phone_number_amended "1+2").2.1 '1' (by decide),
   (normalize_phone_number_amended "1+2").1⟩

/-- C3: a magic link redeems at most once — redemption fails with the
invalid-or-expired error whenever the link is marked used or its expiry lies
in the past (regardless of the used flag), and a successful redemption sets
`is_used` so that every later attempt with the same token fails. -/
theorem verify_magic_link_single_use (ml : MagicLink) (now nowLater : Nat) :
    ((ml.is_used = true ∨ ml.expires_at < now) →
      (AuthViewSet.verify_magic_link (some ml) now).1
        = Except.error RedeemError.usedOrExpired) ∧
    (∀ r, (AuthViewSet.verify_magic_link (some ml) now).1 = Except.ok r →
      r.is_used = true ∧
      (AuthViewSet.verify_magic_link
          (AuthViewSet.verify_magic_link (some ml) now).2 nowLater).1
        = Except.error RedeemError.usedOrExpired) := by
  constructor
  · intro h
    rcases h with h | h
    · simp [AuthViewSet.verify_magic_link, MagicLink.is_valid, h]
    · cases hm : ml.is_used <;>
        simp [AuthViewSet.verify_magic_link, MagicLink.is_valid, hm, h]
  · intro r hr
    have hv : ml.is_valid now = true := by
      cases h : ml.is_valid now
      · simp [AuthViewSet.verify_magic_link, h] at hr
      · rfl
    have hr' : r = { ml with is_used := true } := by
      simp [AuthViewSet.verify_magic_link, hv] at hr
      exact hr.symm
    subst hr'
    refine ⟨rfl, ?_⟩
    have h2 : (AuthViewSet.verify_magic_link (some ml) now).2
        = some { ml with is_used := true } := by
      simp [AuthViewSet.verify_magic_link, hv]
    rw [h2]
    simp [AuthViewSet.verify_magic_link, MagicLink.is_valid]

theorem verify_magic_link_single_use_witness :
    (AuthViewSet.verify_magic_link (some ⟨"tok", 100, true, none⟩) 50).1
      = Except.error RedeemError.usedOrExpired ∧
    ({ token := "tok", expires_at := 100, is_used := true, used_at := none }
        : MagicLink).is_used = true ∧
    (AuthViewSet.verify_magic_link
        (AuthViewSet.verify_magic_link (some ⟨"tok", 100, false, none⟩) 50).2 70).1
      = Except.error RedeemError.usedOrExpired := by
  refine ⟨(verify_magic_link_single_use ⟨"tok", 100, true, none⟩ 50 70).1 (Or.inl rfl), ?_⟩
  exact (verify_magic_link_single_use ⟨"tok", 100, false, none⟩ 50 70).2
    ⟨"tok", 100, true, none⟩ rfl

/-- C4: on a still-valid verification record a non-matching code fails and
increments `attempts` by one; once `attempts` has reached `max_attempts`,
every further confirmation attempt fails — even with the matching code — the
record is unchanged, and `verify_code_for_user` leaves the user untouched, so
the phone-verified flag stays false. -/
theorem verify_code_attempts (v : PhoneVerification) (user : AuthUser)
    (code : String) (now : Nat) :
    (v.is_valid now = true → v.verification_code ≠ code →
      v.verify_code now code = (false, { v with attempts := v.attempts + 1 })) ∧
    (v.max_attempts ≤ v.attempts →
      v.verify_code now code = (false, v) ∧
      (PhoneService.verify_code_for_user user (some v) code now).1 ≠ Except.ok () ∧
      (PhoneService.verify_code_for_user user (some v) code now).2.1 = user) := by
  constructor
  · intro hv hne
    simp [PhoneVerification.verify_code, hv, hne]
  · intro hmax
    have hv : v.is_valid now = false := by
      simp [PhoneVerification.is_valid, hmax]
    have hvc : v.verify_code now code = (false, v) := by
      unfold PhoneVerification.verify_code
      rw [if_pos hv]
    refine ⟨hvc, ?_⟩
    cases h1 : v.is_verified
    · by_cases h2 : v.expires_at < now
      · simp [PhoneService.verify_code_for_user, h1, h2]
      · simp [PhoneService.verify_code_for_user, h1, h2, hvc]
    · simp [PhoneService.verify_code_for_user, h1]

theorem verify_code_attempts_witness :
    (⟨"+1", "123456", 0, 600, false, none, 1, 3⟩ : PhoneVerification).verify_code 10 "000000"
      = (false, ⟨"+1", "123456", 0, 600, false, none, 2, 3⟩) ∧
    ((⟨"+1", "123456", 0, 600, false, none, 3, 3⟩ : PhoneVerification).verify_code 10 "123456"
      = (false, ⟨"+1", "123456", 0, 600, false, none, 3, 3⟩) ∧
     (PhoneService.verify_code_for_user ⟨9, "", false⟩
        (some ⟨"+1", "123456", 0, 600, false, none, 3, 3⟩) "123456" 10).1 ≠ Except.ok () ∧
     (PhoneService.verify_code_for_user ⟨9, "", false⟩
        (some ⟨"+1", "123456", 0, 600, false, none, 3, 3⟩) "123456" 10).2.1 = ⟨9, "", false⟩) := by
  constructor
  · exact (verify_code_attempts ⟨"+1", "123456", 0, 600, false, none, 1, 3⟩
      ⟨9, "", false⟩ "000000" 10).1 (by decide) (by decide)
  · exact (verify_code_attempts ⟨"+1", "123456", 0, 600, false, none, 3, 3⟩
      ⟨9, "", false⟩ "123456" 10).2 (by decide)

/-- C8: the GET cooldown endpoint is not read-only — on a record past its
expiry and not yet verified it flips `is_verified` to true, so a later
confirm-code call on that record fails with the already-used error rather
than the expired one. -/
theorem cooldown_get_marks_expired_verified (v : PhoneVerification) (now : Nat)
    (hexp : v.expires_at < now) (hunv : v.is_verified = false) :
    (AuthViewSet.phone_verification_cooldown (some v) now).2
      = some { v with is_verified := true } ∧
    ∀ user code nowLater,
      (PhoneService.verify_code_for_user user (some { v with is_verified := true })
          code nowLater).1 = Except.error VerifyError.alreadyUsed := by
  constructor
  · by_cases hrem : ((v.created_at : Int) + 600 - (now : Int)) > 0
    · simp [AuthViewSet.phone_verification_cooldown, hexp, hunv, hrem]
    · simp [AuthViewSet.phone_verification_cooldown, hexp, hunv, hrem]
  · intro user code nowLater
    simp [PhoneService.verify_code_for_user]

theorem cooldown_get_marks_expired_verified_witness :
    (AuthViewSet.phone_verification_cooldown
        (some ⟨"+1", "123456", 0, 50, false, none, 0, 3⟩) 100).2
      = some ⟨"+1", "123456", 0, 50, true, none, 0, 3⟩ ∧
    (PhoneService.verify_code_for_user ⟨9, "", false⟩
        (some ⟨"+1", "123456", 0, 50, true, none, 0, 3⟩) "123456" 100).1
      = Except.error VerifyError.alreadyUsed := by
  have h := cooldown_get_marks_expired_verified
    ⟨"+1", "123456", 0, 50, false, none, 0, 3⟩ 100 (by decide) rfl
  exact ⟨h.1, h.2 ⟨9, "", false⟩ "123456" 100⟩

/-- C7: once the uniqueness and cooldown checks pass, the verification row is
persisted with the freshly generated code, and the service reports success
whether or not SMS dispatch succeeded — on failure the reason is attached as
`sms_error` instead of surfacing as an error, and the row is not deleted. -/
theorem create_verification_sms_swallowed (users : List AuthUser) (callerId : Nat)
    (existing : Option PhoneVerification) (phone newCode smsErr : String) (now : Nat)
    (huniq : users.any (fun u => u.phone = phone && u.id ≠ callerId) = false)
    (hcool : ∀ v, existing = some v → v.created_at + 600 ≤ now) :
    ∃ v', ∀ smsOk,
      PhoneService.create_verification users callerId existing phone newCode now smsOk smsErr
        = (CreateVerificationResult.ok (if smsOk then none else some smsErr), some v') ∧
      v'.verification_code = newCode ∧
      v'.phone_number = PhoneService.normalize_phone_number phone ∧
      v'.created_at = now ∧ v'.expires_at = now + 600 ∧
      v'.is_verified = false ∧ v'.attempts = 0 := by
  have hneg : ¬ ((users.any fun u => u.phone = phone && u.id ≠ callerId) = true) := by
    rw [huniq]
    simp
  cases existing with
  | none =>
    refine ⟨{
        phone_number := PhoneService.normalize_phone_number phone,
        verification_code := newCode,
        created_at := now,
        expires_at := now + 600,
        is_verified := false,
        verified_at := none,
        attempts := 0,
        max_attempts := 3 }, fun smsOk => ?_⟩
    refine ⟨?_, rfl, rfl, rfl, rfl, rfl, rfl⟩
    unfold PhoneService.create_verification
    rw [if_neg hneg]
  | some v =>
    have h6 := hcool v rfl
    have hr : ¬ ((v.created_at : Int) + 600 - (now : Int) > 0) := by omega
    refine ⟨{ v with
        phone_number := PhoneService.normalize_phone_number phone,
        verification_code := newCode,
        expires_at := now + 600,
        is_verified := false,
        attempts := 0,
        created_at := now }, fun smsOk => ?_⟩
    refine ⟨?_, rfl, rfl, rfl, rfl, rfl, rfl⟩
    unfold PhoneService.create_verification
    rw [if_neg hneg]
    simp only []
    rw [if_neg hr]

theorem create_verification_sms_swallowed_witness :
    ∃ v', PhoneService.create_verification [⟨9, "", false⟩] 9 none "+1 555" "111222"
          1000 false "boom"
        = (CreateVerificationResult.ok (some "boom"), some v') ∧
      v'.verification_code = "111222" := by
  obtain ⟨v', h⟩ := create_verification_sms_swallowed [⟨9, "", false⟩] 9 none
    "+1 555" "111222" "boom" 1000 (by decide) (fun v hv => by cases hv)
  exact ⟨v', (h false).1, (h false).2.1⟩

/-- C6: whenever the target's active membership row has role `owner`,
`remove_member` answers with an error on every path — it never answers `ok` —
and the membership table is returned unchanged, so the owner row is never
deactivated. -/
theorem remove_member_owner_rejected (instances : List Nat) (members : List InstanceMember)
    (callerId instId targetId : Nat) (m : InstanceMember)
    (hfind : members.find? (targetRow instId targetId) = some m)
    (howner : m.role = "owner") :
    (InstanceViewSet.remove_member instances members callerId instId targetId).1
      ≠ RemoveResult.ok ∧
    (InstanceViewSet.remove_member instances members callerId instId targetId).2
      = members := by
  unfold InstanceViewSet.remove_member
  split
  · exact ⟨by simp, rfl⟩
  split
  · exact ⟨by simp, rfl⟩
  rw [hfind]
  simp [howner]

theorem remove_member_owner_rejected_witness :
    (InstanceViewSet.remove_member [7] [⟨1, 7, "admin", true⟩, ⟨2, 7, "owner", true⟩] 1 7 2).1
      ≠ RemoveResult.ok ∧
    (InstanceViewSet.remove_member [7] [⟨1, 7, "admin", true⟩, ⟨2, 7, "owner", true⟩] 1 7 2).2
      = [⟨1, 7, "admin", true⟩, ⟨2, 7, "owner", true⟩] :=
  remove_member_owner_rejected [7] [⟨1, 7, "admin", true⟩, ⟨2, 7, "owner", true⟩] 1 7 2
    ⟨2, 7, "owner", true⟩ (by decide) rfl

/-- C1 (code bug): the claim requires every state-changing operation to demand
an active membership with an allowed role, an inactive-only caller receiving
Forbidden with no state change.  The code diverges twice: `MenuViewSet.create`
checks the role list without `is_active`, so a caller whose only membership row
is an inactive `manager` row creates the menu successfully (201, state
changed); and on the instance endpoints an inactive-only caller gets 404
NotFound — the instance queryset excludes them — rather than 403. -/
theorem menu_create_ignores_inactive_membership :
    MenuViewSet.create [7] [⟨1, 7, "manager", false⟩] [] 1 ⟨7, "Dinner"⟩
      = (MenuCreateResult.created, [⟨7, "Dinner"⟩]) ∧
    (InstanceViewSet.remove_member [7] [⟨1, 7, "admin", false⟩, ⟨2, 7, "staff", true⟩] 1 7 2).1
      = RemoveResult.notFoundInstance :=
  ⟨by decide, by decide⟩

/-- C2 counterexample: when the owner-membership write fails right after the
instance row was created, the operation errors (`none`) yet the instance row
is persisted while no owner membership exists — refuting "either both are
persisted or neither is". -/
theorem instance_create_partial_failure_counterexample :
    (InstanceCreateSerializer.create [] [] 5 0 "Cafe" true).1 = none ∧
    (⟨0, "Cafe"⟩ : InstanceRow) ∈ (InstanceCreateSerializer.create [] [] 5 0 "Cafe" true).2.1 ∧
    ownerRows (InstanceCreateSerializer.create [] [] 5 0 "Cafe" true).2.2 = [] :=
  ⟨rfl, by decide, rfl⟩

/-- C2 (amended): on the success path instance creation persists the instance
row together with exactly one additional `owner` membership row for the
creator; but the two writes are not transactional — if the membership write
fails after the instance row was created, the error propagates while the
instance row remains persisted and no membership row is added (no
rollback). -/
theorem instance_create_amended (instances : List InstanceRow)
    (members : List InstanceMember) (userId newId : Nat) (name : String) :
    InstanceCreateSerializer.create instances members userId newId name false
      = (some ⟨newId, name⟩, instances ++ [⟨newId, name⟩],
         members ++ [⟨userId, newId, "owner", true⟩]) ∧
    InstanceCreateSerializer.create instances members userId newId name true
      = (none, instances ++ [⟨newId, name⟩], members) :=
  ⟨rfl, rfl⟩

theorem ownerRows_cons (m : InstanceMember) (ms : List InstanceMember) :
    ownerRows (m :: ms)
      = if m.role = "owner" then m :: ownerRows ms else ownerRows ms := by
  unfold ownerRows
  rw [List.filter_cons]
  by_cases h : m.role = "owner" <;> simp [h]

theorem ownerRows_deactivateFirst (p : InstanceMember → Bool)
    (ms : List InstanceMember) (m : InstanceMember)
    (hfind : ms.find? p = some m) (hro : m.role ≠ "owner") :
    ownerRows (deactivateFirst p ms) = ownerRows ms := by
  induction ms with
  | nil => simp at hfind
  | cons x xs ih =>
    by_cases hx : p x = true
    · have hxm : x = m := by
        rw [List.find?_cons_of_pos _ hx] at hfind
        exact Option.some.inj hfind
      have hx' : x.role ≠ "owner" := by rw [hxm]; exact hro
      unfold deactivateFirst
      rw [if_pos hx, ownerRows_cons, ownerRows_cons]
      simp [hx']
    · unfold deactivateFirst
      rw [if_neg hx, ownerRows_cons, ownerRows_cons]
      rw [List.find?_cons_of_neg _ hx] at hfind
      by_cases hq : x.role = "owner" <;> simp [hq, ih hfind]

theorem ownerRows_invite (instances users : List Nat) (members : List InstanceMember)
    (c i t : Nat) (role : String) :
    ownerRows (InstanceViewSet.invite_member instances users members c i t role).2
      = ownerRows members := by
  unfold InstanceViewSet.invite_member
  split
  · rfl
  split
  · rfl
  split
  · rfl
  split
  · rfl
  split
  · rfl
  rename_i h1 h2 h3 h4 h5
  have hmem : role = "admin" ∨ role = "manager" ∨ role = "staff" := by
    have h3' : role ∈ inviteRoleChoices := by simpa using h3
    simpa [inviteRoleChoices] using h3'
  have hro : role ≠ "owner" := by
    rcases hmem with h | h | h <;> simp [h]
  unfold ownerRows
  rw [List.filter_append]
  simp [hro]

theorem ownerRows_remove (instances : List Nat) (members : List InstanceMember)
    (c i t : Nat) :
    ownerRows (InstanceViewSet.remove_member instances members c i t).2
      = ownerRows members := by
  unfold InstanceViewSet.remove_member
  split
  · rfl
  split
  · rfl
  split
  · rfl
  rename_i member hfind
  split
  · rfl
  rename_i hro
  exact ownerRows_deactivateFirst _ members member hfind hro

/-- C9: the member-management endpoints can neither add nor drop an `owner`
row — `invite_member` only offers the roles admin/manager/staff and
`remove_member` refuses owners — so over every sequence of invite and remove
requests the rows with role `owner` are exactly preserved; the owner created
at instance creation stays the only one. -/
theorem member_ops_preserve_owner_set (instances users : List Nat)
    (members : List InstanceMember) (ops : List MemberOp) :
    ownerRows (applyMemberOps instances users members ops) = ownerRows members := by
  induction ops generalizing members with
  | nil => rfl
  | cons op ops ih =>
    have hstep : ownerRows (applyMemberOp instances users members op) = ownerRows members := by
      cases op with
      | invite c i t r => exact ownerRows_invite instances users members c i t r
      | remove c i t => exact ownerRows_remove instances members c i t
    calc ownerRows (applyMemberOps instances users
            (applyMemberOp instances users members op) ops)
        = ownerRows (applyMemberOp instances users members op) := ih _
      _ = ownerRows members := hstep

/-- C10: for every ticket whose category is a key of `CATEGORY_PRIORITY_MAP`,
`save` stores the mapped priority — the assignment is unconditional, so any
caller-supplied priority is overwritten on every save, not only when it was
unset. -/
theorem support_ticket_priority_forced (t : SupportTicket) (lastNum : Option Nat)
    (p : String) (h : CATEGORY_PRIORITY_MAP.lookup t.category = some p) :
    (SupportTicket.save t lastNum).priority = p := by
  have hcat : ¬ (t.category = "") := by
    intro hc
    rw [hc] at h
    have hnone : CATEGORY_PRIORITY_MAP.lookup "" = none := rfl
    rw [hnone] at h
    exact Option.noConfusion h
  have hTcat : (if t.ticket_number = "" then
      { t with ticket_number := ticketNumberFormat ((lastNum.getD 0) + 1) }
      else t).category = t.category := by
    split <;> rfl
  simp only [SupportTicket.save, hTcat]
  rw [if_neg hcat, h]

theorem support_ticket_priority_forced_witness :
    (SupportTicket.save ⟨"", "feature_request", "high"⟩ (some 12)).priority = "low" :=
  support_ticket_priority_forced ⟨"", "feature_request", "high"⟩ (some 12) "low" rfl

end Veo
